import Mathlib

/-!
Verification development for the eBird hotspot guide pipeline.

This file gives a shallow embedding of the three core aggregation stages of
the repository and proves the stated properties about them:

* `count_checklists_per_hotspot` (src/processors/checklist_counter.py):
  streams qualifying sampling-event rows and accumulates, per locality,
  a total checklist count and twelve monthly checklist counts.
* `count_species_detections` (src/processors/species_detector.py):
  streams qualifying observation rows and accumulates, per
  (species, locality) pair, the set of checklist identifiers where the
  species was detected (overall and per month), a running total of the
  numeric observation counts and a running maximum.
* `calculate_occurrence_rates` (src/processors/occurrence_calculator.py):
  a pure function combining both mappings into per-species guides with
  occurrence, seasonal and monthly rates, confidence levels, and a
  deterministic ranking of hotspots.

Python dictionaries are embedded as association lists in insertion order
(CPython dictionaries preserve insertion order); Python sets of checklist
identifiers as `Finset String`; the numeric rates as exact rationals, with
Python's `round(x, n)` (round half to even) embedded as integer rounding
of an exact ratio.
-/

/-! ## Numeric core: Python `round` on exact ratios

Python's builtin `round(x, p)` rounds to `p` decimal places using round half
to even. The pipeline only ever rounds a ratio of two integers (detection
counts over checklist counts), so we embed the operation as exact rational
rounding of a ratio `n / d`. -/

/-- Round half to even of the ratio `n / d` (for `d > 0`): the nearest
integer to `n / d`, ties going to the even integer. -/
def halfEvenDiv (n : ℤ) (d : ℕ) : ℤ :=
  if 2 * (n - n / (d : ℤ) * d) < (d : ℤ) then n / (d : ℤ)
  else if (d : ℤ) < 2 * (n - n / (d : ℤ) * d) then n / (d : ℤ) + 1
  else if n / (d : ℤ) % 2 = 0 then n / (d : ℤ) else n / (d : ℤ) + 1

/-- Embedding of Python's `round(n / d, p)`: the ratio `n / d` rounded to
`p` decimal places, half to even, as an exact rational. -/
def roundDiv (p : ℕ) (n : ℤ) (d : ℕ) : ℚ :=
  mkRat (halfEvenDiv (n * (10 : ℤ) ^ p) d) ((10 : ℕ) ^ p)

/-! ## Python `int` parsing

`count_species_detections` converts the OBSERVATION COUNT field with
Python's `int(str)`, which strips surrounding whitespace, accepts an
optional sign and decimal digits with single underscores between digits,
and raises `ValueError` otherwise (modelled as `none`). -/

/-- Parse a digit run with optional single underscores between digits,
accumulating into `acc`; fails on a trailing or doubled underscore or any
non-digit character. -/
def parseDigitRun (acc : ℕ) : List Char → Option ℕ
  | [] => some acc
  | ['_'] => none
  | '_' :: c :: cs =>
    if c.isDigit then parseDigitRun (acc * 10 + (c.toNat - 48)) cs else none
  | c :: cs =>
    if c.isDigit then parseDigitRun (acc * 10 + (c.toNat - 48)) cs else none

/-- Parse a nonempty digit run that must start with a digit (no leading
underscore). -/
def parseDigits : List Char → Option ℕ
  | [] => none
  | c :: cs => if c.isDigit then parseDigitRun (c.toNat - 48) cs else none

/-- Whitespace characters stripped by Python's `int` (and `str.strip`). -/
def isPySpace (c : Char) : Bool :=
  c = ' ' ∨ c = '\t' ∨ c = '\n' ∨ c = '\r' ∨ c = '\x0b' ∨ c = '\x0c'

/-- Strip leading and trailing whitespace from a character list. -/
def stripSpaces (l : List Char) : List Char :=
  ((l.dropWhile isPySpace).reverse.dropWhile isPySpace).reverse

/-- Model of Python's `int : str -> int`: optional surrounding whitespace,
optional sign, then decimal digits (underscore grouping allowed);
`none` models the `ValueError` raised for any other input. -/
def pyParseInt (s : String) : Option ℤ :=
  match stripSpaces s.toList with
  | '+' :: rest => (parseDigits rest).map (fun n => (n : ℤ))
  | '-' :: rest => (parseDigits rest).map (fun n => -(n : ℤ))
  | l => (parseDigits l).map (fun n => (n : ℤ))

/-! ## Configuration constants (src/config.py) -/

/-- Minimum checklists to include a hotspot (src/config.py line 62). -/
def MIN_CHECKLISTS_THRESHOLD : ℕ := 10

/-- Checklist count for "high" confidence (src/config.py line 63). -/
def HIGH_CONFIDENCE_MIN : ℕ := 100

/-- Checklist count for "medium" confidence (src/config.py line 64). -/
def MEDIUM_CONFIDENCE_MIN : ℕ := 30

/-- Seasonal definitions by month number (src/config.py lines 67-72),
in dictionary insertion order. -/
def SEASONS : List (String × List ℕ) :=
  [("spring", [3, 4, 5]),
   ("summer", [6, 7]),
   ("fall", [8, 9, 10, 11]),
   ("winter", [12, 1, 2])]

/-- Decimal places used when rounding rates (src/config.py line 76). -/
def RATE_DECIMAL_PLACES : ℕ := 4

/-! ## Association-list update

The source accumulates into Python dictionaries (plain or defaultdict),
which preserve insertion order. We embed them as association lists:
updating an existing key rewrites its value in place, and a missing key is
appended at the end with `f default`, exactly mirroring
"initialize on first access, then mutate". -/

/-- Update the entry of key `k` with `f`, inserting `f d` at the end when
`k` is absent (Python dict insertion-order semantics). -/
def updateAssoc {β : Type} (k : String) (d : β) (f : β → β) :
    List (String × β) → List (String × β)
  | [] => [(k, f d)]
  | (k', v) :: rest =>
    if k' = k then (k', f v) :: rest else (k', v) :: updateAssoc k d f rest

/-! ## VisitAggregator: count_checklists_per_hotspot
(src/processors/checklist_counter.py) -/

/-- Accumulated per-locality visit statistics (the dictionaries built at
src/processors/checklist_counter.py lines 63-70). The monthly map is a
total function with the dictionary's default reading `0`; the source
initializes keys 1..12 and only ever touches months of parsed dates. -/
structure Hotspot where
  name : String
  latitude : ℚ
  longitude : ℚ
  total_checklists : ℕ
  monthly_checklists : ℕ → ℕ

/-- One projected row of the sampling-events file (columns SAMPLING_COLS,
src/config.py lines 79-88). `observation_month` is the calendar month
(1-12) of the parsed OBSERVATION DATE; an unparsable date aborts the run,
so rows with a month are the function's entire domain.
`all_species_reported` is a nullable integer column. -/
structure SampRow where
  locality_id : String
  locality : String
  locality_type : String
  latitude : ℚ
  longitude : ℚ
  observation_month : ℕ
  sampling_event_identifier : String
  all_species_reported : Option ℤ

/-- Filter of src/processors/checklist_counter.py line 51: complete
checklists (ALL SPECIES REPORTED == 1) at hotspots (LOCALITY TYPE == 'H'). -/
def sampQualifies (r : SampRow) : Bool :=
  r.locality_type = "H" ∧ r.all_species_reported = some 1

/-- Per-row accumulation of src/processors/checklist_counter.py lines
59-73: initialize the locality record on first visit, then increment the
total and the row's month bucket. -/
def sampStep (st : List (String × Hotspot)) (r : SampRow) :
    List (String × Hotspot) :=
  updateAssoc r.locality_id
    { name := r.locality
      latitude := r.latitude
      longitude := r.longitude
      total_checklists := 0
      monthly_checklists := fun _ => 0 }
    (fun h =>
      { h with
        total_checklists := h.total_checklists + 1
        monthly_checklists := fun m =>
          if m = r.observation_month then h.monthly_checklists m + 1
          else h.monthly_checklists m })
    st

/-- Process one chunk of the sampling file: filter the qualifying rows,
then fold the per-row accumulation (lines 49-73). -/
def processSamplingChunk (st : List (String × Hotspot)) (chunk : List SampRow) :
    List (String × Hotspot) :=
  (chunk.filter sampQualifies).foldl sampStep st

/-- count_checklists_per_hotspot on the full row stream (the logical
content of src/processors/checklist_counter.py lines 47-78; the chunk loop
is `count_checklists_chunked` below). -/
def count_checklists_per_hotspot (rows : List SampRow) :
    List (String × Hotspot) :=
  processSamplingChunk [] rows

/-- The chunked streaming pass exactly as the source runs it: the row
stream arrives as contiguous chunks, each filtered and folded in turn. -/
def count_checklists_chunked (chunks : List (List SampRow)) :
    List (String × Hotspot) :=
  chunks.foldl processSamplingChunk []

/-! ## DetectionAggregator: count_species_detections
(src/processors/species_detector.py) -/

/-- Accumulated detection data for one (species, locality) pair
(src/processors/species_detector.py lines 34-42). The monthly map is a
total function into finsets with default `∅`. `scientific_name` starts as
`""` standing for the source's `None` placeholder, which is overwritten
before it can ever be read (every existing entry has processed at least
one row, and each row assigns the field). -/
structure Detection where
  scientific_name : String
  checklist_ids : Finset String
  monthly_checklist_ids : ℕ → Finset String
  total_count : ℤ
  max_count : ℤ

/-- Defaults created by the defaultdict factory
(src/processors/species_detector.py lines 35-41). -/
def defaultDetection : Detection :=
  { scientific_name := ""
    checklist_ids := ∅
    monthly_checklist_ids := fun _ => ∅
    total_count := 0
    max_count := 0 }

/-- One projected row of the main observations file (columns MAIN_COLS,
src/config.py lines 91-101). `observation_count` is `none` for a missing
cell (pandas NaN) and otherwise the raw string of the OBSERVATION COUNT
column. -/
structure ObsRow where
  common_name : String
  scientific_name : String
  category : String
  locality_id : String
  locality_type : String
  sampling_event_identifier : String
  all_species_reported : Option ℤ
  observation_month : ℕ
  observation_count : Option String

/-- Filter of src/processors/species_detector.py lines 70-74: hotspots,
complete checklists, species-level taxa only. -/
def obsQualifies (r : ObsRow) : Bool :=
  r.locality_type = "H" ∧ r.all_species_reported = some 1 ∧
    r.category = "species"

/-- Per-row mutation of one Detection record
(src/processors/species_detector.py lines 89-102): assign the scientific
name, add the checklist id to the overall and monthly sets, then add a
parseable observation count to the running total and maximum ('X' and
unparsable counts leave total and maximum untouched). -/
def applyObservation (r : ObsRow) (d : Detection) : Detection :=
  let d1 : Detection :=
    { d with
      scientific_name := r.scientific_name
      checklist_ids := insert r.sampling_event_identifier d.checklist_ids
      monthly_checklist_ids := fun m =>
        if m = r.observation_month then
          insert r.sampling_event_identifier (d.monthly_checklist_ids m)
        else d.monthly_checklist_ids m }
  match r.observation_count with
  | none => d1
  | some s =>
    if s = "X" then d1
    else
      match pyParseInt s with
      | some k => { d1 with total_count := d1.total_count + k
                            max_count := max d1.max_count k }
      | none => d1

/-- Per-row accumulation into the nested species -> locality mapping
(src/processors/species_detector.py lines 82-102). -/
def detStep (st : List (String × List (String × Detection))) (r : ObsRow) :
    List (String × List (String × Detection)) :=
  updateAssoc r.common_name []
    (updateAssoc r.locality_id defaultDetection (applyObservation r)) st

/-- Process one chunk of the main file: filter the qualifying rows, then
fold the per-row accumulation (lines 65-102). -/
def processObservationChunk (st : List (String × List (String × Detection)))
    (chunk : List ObsRow) : List (String × List (String × Detection)) :=
  (chunk.filter obsQualifies).foldl detStep st

/-- count_species_detections on the full row stream (the logical content
of src/processors/species_detector.py lines 63-105). -/
def count_species_detections (rows : List ObsRow) :
    List (String × List (String × Detection)) :=
  processObservationChunk [] rows

/-- The chunked streaming pass exactly as the source runs it. -/
def count_species_detections_chunked (chunks : List (List ObsRow)) :
    List (String × List (String × Detection)) :=
  chunks.foldl processObservationChunk []

/-! ## RateCalculator: calculate_occurrence_rates
(src/processors/occurrence_calculator.py) -/

/-- Data for a species occurrence at a specific hotspot
(src/processors/occurrence_calculator.py lines 15-29). The seasonal and
monthly rate dictionaries are association lists in insertion order. -/
structure SpeciesAtHotspot where
  locality_id : String
  hotspot_name : String
  latitude : ℚ
  longitude : ℚ
  detection_count : ℕ
  total_checklists : ℕ
  occurrence_rate : ℚ
  avg_count : Option ℚ
  max_count : Option ℤ
  seasonal_rates : List (String × ℚ)
  monthly_rates : List (ℕ × ℚ)
  confidence_level : String
deriving DecidableEq

/-- Complete guide for a single species
(src/processors/occurrence_calculator.py lines 32-39). -/
structure SpeciesGuide where
  common_name : String
  scientific_name : String
  total_detections : ℕ
  total_hotspots_detected : ℕ
  hotspots : List SpeciesAtHotspot
deriving DecidableEq

/-- determine_confidence (src/processors/occurrence_calculator.py lines
47-54). -/
def determine_confidence (checklist_count : ℕ) : String :=
  if HIGH_CONFIDENCE_MIN ≤ checklist_count then "high"
  else if MEDIUM_CONFIDENCE_MIN ≤ checklist_count then "medium"
  else "low"

/-- Seasonal rates loop (src/processors/occurrence_calculator.py lines
102-113): for each season, sum the hotspot's monthly checklist counts over
the season's months; when that sum is at least 5, emit the season with the
sum of the monthly detection-set sizes over the seasonal checklist sum,
rounded; otherwise the season is omitted. -/
def seasonalRates (hs : Hotspot) (d : Detection) : List (String × ℚ) :=
  SEASONS.filterMap (fun sm =>
    let seasonal_checklists := (sm.2.map hs.monthly_checklists).sum
    if 5 ≤ seasonal_checklists then
      let seasonal_detections :=
        (sm.2.map (fun m => (d.monthly_checklist_ids m).card)).sum
      some (sm.1, roundDiv RATE_DECIMAL_PLACES (seasonal_detections : ℤ)
        seasonal_checklists)
    else none)

/-- Monthly rates loop (src/processors/occurrence_calculator.py lines
116-124): months 1..12 with at least 3 checklists get a rounded monthly
rate; others are omitted. -/
def monthlyRates (hs : Hotspot) (d : Detection) : List (ℕ × ℚ) :=
  ((List.range 12).map (fun i => i + 1)).filterMap (fun month =>
    let month_checklists := hs.monthly_checklists month
    if 3 ≤ month_checklists then
      some (month, roundDiv RATE_DECIMAL_PLACES
        ((d.monthly_checklist_ids month).card : ℤ) month_checklists)
    else none)

/-- Construction of one SpeciesAtHotspot record for a pair that passed the
inclusion gate (src/processors/occurrence_calculator.py lines 97-148). -/
def hotspotEntry (loc_id : String) (hs : Hotspot) (d : Detection) :
    SpeciesAtHotspot :=
  let detection_count := d.checklist_ids.card
  { locality_id := loc_id
    hotspot_name := hs.name
    latitude := hs.latitude
    longitude := hs.longitude
    detection_count := detection_count
    total_checklists := hs.total_checklists
    occurrence_rate := roundDiv RATE_DECIMAL_PLACES (detection_count : ℤ)
      hs.total_checklists
    avg_count :=
      if 0 < detection_count ∧ 0 < d.total_count then
        some (roundDiv 1 d.total_count detection_count)
      else none
    max_count := if 0 < d.max_count then some d.max_count else none
    seasonal_rates := seasonalRates hs d
    monthly_rates := monthlyRates hs d
    confidence_level := determine_confidence hs.total_checklists }

/-- Ranking comparator: the Python sort key
`(occurrence_rate, detection_count)` with `reverse=True`, so `a` may come
before `b` when its key is lexicographically at least `b`'s
(src/processors/occurrence_calculator.py lines 150-154). -/
def hotspotLe (a b : SpeciesAtHotspot) : Bool :=
  decide (b.occurrence_rate < a.occurrence_rate ∨
    (a.occurrence_rate = b.occurrence_rate ∧
      b.detection_count ≤ a.detection_count))

/-- Stable insertion of `x` into a list sorted by `le`: `x` goes after
every element it is mutually tied with, matching the stability of CPython's
`list.sort`. -/
def insertLe {α : Type} (le : α → α → Bool) (x : α) : List α → List α
  | [] => [x]
  | y :: ys => if le y x then y :: insertLe le x ys else x :: y :: ys

/-- Stable sort by `le`, inserting the elements in their original order:
for a total transitive comparator this yields exactly the result of
CPython's stable `list.sort`. -/
def stableSortLe {α : Type} (le : α → α → Bool) (l : List α) : List α :=
  l.foldl (fun acc x => insertLe le x acc) []

/-- The sort of src/processors/occurrence_calculator.py lines 150-154. -/
def sortHotspots (l : List SpeciesAtHotspot) : List SpeciesAtHotspot :=
  stableSortLe hotspotLe l

/-- Loop state of the per-species loop in calculate_occurrence_rates
(src/processors/occurrence_calculator.py lines 78-80). -/
structure SpeciesAccum where
  hotspots_list : List SpeciesAtHotspot
  total_detections : ℕ
  scientific_name : Option String
deriving DecidableEq

/-- One iteration of the per-locality loop
(src/processors/occurrence_calculator.py lines 82-148): skip localities
missing from the hotspot data or below the checklist threshold; otherwise
latch the scientific name on first pass, add the detection count, and
append the hotspot entry. -/
def specStep (hotspot_data : List (String × Hotspot)) (min_checklists : ℕ)
    (st : SpeciesAccum) (p : String × Detection) : SpeciesAccum :=
  match List.lookup p.1 hotspot_data with
  | none => st
  | some hs =>
    if hs.total_checklists < min_checklists then st
    else
      { hotspots_list := st.hotspots_list ++ [hotspotEntry p.1 hs p.2]
        total_detections := st.total_detections + p.2.checklist_ids.card
        scientific_name :=
          match st.scientific_name with
          | none => some p.2.scientific_name
          | some s => some s }

/-- The guide built for one species
(src/processors/occurrence_calculator.py lines 78-162): fold the
per-locality loop, sort the collected hotspots, and assemble the record
(`scientific_name or ''` reads the latched name with `""` fallback). -/
def processSpecies (hotspot_data : List (String × Hotspot))
    (min_checklists : ℕ) (species : String)
    (dets : List (String × Detection)) : SpeciesGuide :=
  let st := dets.foldl (specStep hotspot_data min_checklists)
    { hotspots_list := [], total_detections := 0, scientific_name := none }
  let sorted := sortHotspots st.hotspots_list
  { common_name := species
    scientific_name := st.scientific_name.getD ""
    total_detections := st.total_detections
    total_hotspots_detected := sorted.length
    hotspots := sorted }

/-- calculate_occurrence_rates
(src/processors/occurrence_calculator.py lines 57-164). -/
def calculate_occurrence_rates (hotspot_data : List (String × Hotspot))
    (species_detections : List (String × List (String × Detection)))
    (min_checklists : ℕ) : List (String × SpeciesGuide) :=
  species_detections.map (fun p =>
    (p.1, processSpecies hotspot_data min_checklists p.1 p.2))

/-! ## Derived notions used in the statements -/

/-- Read a (species, locality) entry of the nested detection mapping. -/
def lookupDet (st : List (String × List (String × Detection)))
    (sp loc : String) : Option Detection :=
  (List.lookup sp st).bind (List.lookup loc)

/-- The inclusion gate of src/processors/occurrence_calculator.py lines
82-91 as a predicate on one (locality, detection) pair: the locality is
known and its checklist total meets the threshold. -/
def passesGate (hotspot_data : List (String × Hotspot)) (min_checklists : ℕ)
    (p : String × Detection) : Bool :=
  match List.lookup p.1 hotspot_data with
  | none => false
  | some hs => decide (min_checklists ≤ hs.total_checklists)

/-- Sum of the twelve monthly visit counts of a locality record. -/
def monthlySum (f : ℕ → ℕ) : ℕ :=
  f 1 + f 2 + f 3 + f 4 + f 5 + f 6 + f 7 + f 8 + f 9 + f 10 + f 11 + f 12

/-- Modelled from the spec's words (section 4.3, "seasonal
detection-visit-set size (union of the species' monthly detection sets for
those months)"): the size of the union of the monthly detection sets over
the season's months, for comparison with the sum of sizes the source
computes. -/
def specSeasonalUnionCard (d : Detection) (months : List ℕ) : ℕ :=
  ((months.map d.monthly_checklist_ids).foldl (fun a b => a ∪ b) ∅).card

/-! ## Helper lemmas: rounding bounds -/

theorem halfEvenDiv_nonneg (n : ℤ) (d : ℕ) (hn : 0 ≤ n) :
    0 ≤ halfEvenDiv n d := by
  have hf : 0 ≤ n / (d : ℤ) := Int.ediv_nonneg hn (Int.natCast_nonneg d)
  unfold halfEvenDiv
  split_ifs <;> omega

theorem halfEvenDiv_le (n : ℤ) (d k : ℕ) (hd : 0 < d)
    (hnk : n ≤ (d : ℤ) * k) : halfEvenDiv n d ≤ (k : ℤ) := by
  have hd0 : (0 : ℤ) < (d : ℤ) := by exact_mod_cast hd
  have hfk : n / (d : ℤ) ≤ (k : ℤ) := by
    have h1 : n / (d : ℤ) ≤ ((d : ℤ) * k) / (d : ℤ) := Int.ediv_le_ediv hd0 hnk
    rwa [Int.mul_ediv_cancel_left _ (by omega : (d : ℤ) ≠ 0)] at h1
  have hmod := Int.ediv_add_emod n (d : ℤ)
  have hr : n - n / (d : ℤ) * (d : ℤ) = n % (d : ℤ) := by
    linarith [mul_comm ((d : ℤ)) (n / (d : ℤ))]
  have hstrict : (d : ℤ) ≤ 2 * (n - n / (d : ℤ) * (d : ℤ)) →
      n / (d : ℤ) + 1 ≤ (k : ℤ) := by
    intro h2
    rw [hr] at h2
    have hrpos : 0 < n % (d : ℤ) := by linarith
    have hlt : (d : ℤ) * (n / (d : ℤ)) < (d : ℤ) * (k : ℤ) := by linarith
    have hlt2 : n / (d : ℤ) < (k : ℤ) := lt_of_mul_lt_mul_left hlt hd0.le
    omega
  unfold halfEvenDiv
  split_ifs with h1 h2 h3
  · exact hfk
  · exact hstrict h2.le
  · exact hfk
  · exact hstrict (not_lt.mp h1)

theorem roundDiv_nonneg (p : ℕ) (n : ℤ) (d : ℕ) (hn : 0 ≤ n) :
    0 ≤ roundDiv p n d := by
  unfold roundDiv
  rw [Rat.mkRat_eq_div]
  apply div_nonneg
  · have h := halfEvenDiv_nonneg (n * (10 : ℤ) ^ p) d
      (mul_nonneg hn (by positivity))
    exact_mod_cast h
  · positivity

theorem roundDiv_le_one (p : ℕ) (n : ℤ) (d : ℕ) (hn : 0 ≤ n)
    (hnd : n ≤ (d : ℤ)) : roundDiv p n d ≤ 1 := by
  rcases Nat.eq_zero_or_pos d with hd | hd
  · subst hd
    have hn0 : n = 0 := le_antisymm (by exact_mod_cast hnd) hn
    subst hn0
    norm_num [roundDiv, halfEvenDiv, Rat.mkRat_eq_div]
  · have hbound : n * (10 : ℤ) ^ p ≤ (d : ℤ) * ((((10 : ℕ) ^ p : ℕ)) : ℤ) := by
      push_cast
      exact mul_le_mul_of_nonneg_right hnd (by positivity)
    have h1 := halfEvenDiv_le (n * (10 : ℤ) ^ p) d ((10 : ℕ) ^ p) hd hbound
    unfold roundDiv
    rw [Rat.mkRat_eq_div, div_le_one (by positivity)]
    exact_mod_cast h1

/-! ## Helper lemmas: association-list update -/

theorem lookup_updateAssoc_self {β : Type} (k : String) (d : β) (f : β → β)
    (l : List (String × β)) :
    List.lookup k (updateAssoc k d f l) = some (f ((List.lookup k l).getD d)) := by
  induction l with
  | nil => simp [updateAssoc, List.lookup]
  | cons a rest ih =>
    obtain ⟨k', v⟩ := a
    by_cases h : k' = k
    · subst h
      simp [updateAssoc, List.lookup]
    · have h2 : (k == k') = false := by
        simp [Ne.symm h]
      simp [updateAssoc, List.lookup, h, h2, ih]

theorem lookup_updateAssoc_other {β : Type} {k k' : String} (hk : k' ≠ k)
    (d : β) (f : β → β) (l : List (String × β)) :
    List.lookup k' (updateAssoc k d f l) = List.lookup k' l := by
  induction l with
  | nil =>
    have h2 : (k' == k) = false := by simp [hk]
    simp [updateAssoc, List.lookup, h2]
  | cons a rest ih =>
    obtain ⟨k'', v⟩ := a
    by_cases h : k'' = k
    · rw [updateAssoc, if_pos h]
      have h2 : (k' == k'') = false := by
        simp [show k' ≠ k'' from fun hh => hk (hh.trans h)]
      simp [List.lookup, h2]
    · rw [updateAssoc, if_neg h]
      simp [List.lookup, ih]

theorem forall_updateAssoc {β : Type} (P : β → Prop) {k : String} {d : β}
    {f : β → β} {l : List (String × β)} (h : ∀ q ∈ l, P q.2) (hfd : P (f d))
    (hf : ∀ v, P v → P (f v)) : ∀ q ∈ updateAssoc k d f l, P q.2 := by
  induction l with
  | nil =>
    intro q hq
    simp only [updateAssoc, List.mem_singleton] at hq
    subst hq
    exact hfd
  | cons a rest ih =>
    obtain ⟨k', v⟩ := a
    intro q hq
    by_cases hkk : k' = k
    · subst hkk
      simp only [updateAssoc, if_pos] at hq
      rcases List.mem_cons.mp hq with hq1 | hq2
      · rw [hq1]
        exact hf v (h (k', v) (List.mem_cons_self _ _))
      · exact h q (List.mem_cons_of_mem _ hq2)
    · simp only [updateAssoc, if_neg hkk] at hq
      rcases List.mem_cons.mp hq with hq1 | hq2
      · rw [hq1]
        exact h (k', v) (List.mem_cons_self _ _)
      · exact ih (fun q hq => h q (List.mem_cons_of_mem _ hq)) q hq2

/-! ## Helper lemmas: stable sort -/

theorem insertLe_cons {α : Type} (le : α → α → Bool) (x y : α) (ys : List α) :
    insertLe le x (y :: ys) =
      if le y x then y :: insertLe le x ys else x :: y :: ys := rfl

theorem mem_insertLe {α : Type} (le : α → α → Bool) (x a : α) (l : List α) :
    a ∈ insertLe le x l ↔ a = x ∨ a ∈ l := by
  induction l with
  | nil => simp [insertLe]
  | cons y ys ih =>
    rw [insertLe_cons]
    by_cases hyp : le y x = true
    · rw [if_pos hyp]
      simp only [List.mem_cons, ih]
      tauto
    · rw [if_neg hyp]
      simp only [List.mem_cons]

theorem insertLe_perm {α : Type} (le : α → α → Bool) (x : α) (l : List α) :
    List.Perm (insertLe le x l) (x :: l) := by
  induction l with
  | nil => exact List.Perm.refl _
  | cons y ys ih =>
    rw [insertLe_cons]
    by_cases hyp : le y x = true
    · rw [if_pos hyp]
      exact (List.Perm.cons y ih).trans (List.Perm.swap x y ys)
    · rw [if_neg hyp]

theorem foldl_insertLe_perm {α : Type} (le : α → α → Bool) (l acc : List α) :
    List.Perm (l.foldl (fun a x => insertLe le x a) acc) (acc ++ l) := by
  induction l generalizing acc with
  | nil => simp
  | cons x xs ih =>
    have h1 := ih (insertLe le x acc)
    have h2 : List.Perm (insertLe le x acc ++ xs) ((x :: acc) ++ xs) :=
      (insertLe_perm le x acc).append_right xs
    have h3 : List.Perm ((x :: acc) ++ xs) (acc ++ x :: xs) :=
      List.perm_middle.symm
    exact (h1.trans h2).trans h3

theorem stableSortLe_perm {α : Type} (le : α → α → Bool) (l : List α) :
    List.Perm (stableSortLe le l) l := by
  simpa using foldl_insertLe_perm le l []

theorem pairwise_insertLe {α : Type} (le : α → α → Bool)
    (htrans : ∀ a b c, le a b = true → le b c = true → le a c = true)
    (htot : ∀ a b, le a b = true ∨ le b a = true) (x : α) (l : List α)
    (h : l.Pairwise (fun a b => le a b = true)) :
    (insertLe le x l).Pairwise (fun a b => le a b = true) := by
  induction l with
  | nil => simp [insertLe]
  | cons y ys ih =>
    rcases List.pairwise_cons.mp h with ⟨hy, hys⟩
    rw [insertLe_cons]
    by_cases hyx : le y x = true
    · rw [if_pos hyx]
      refine List.pairwise_cons.mpr ⟨?_, ih hys⟩
      intro z hz
      rcases (mem_insertLe le x z ys).mp hz with rfl | hz'
      · exact hyx
      · exact hy z hz'
    · have hxy : le x y = true := (htot x y).resolve_right hyx
      rw [if_neg hyx]
      refine List.pairwise_cons.mpr ⟨?_, h⟩
      intro z hz
      rcases List.mem_cons.mp hz with rfl | hz'
      · exact hxy
      · exact htrans x y z hxy (hy z hz')

theorem pairwise_stableSortLe {α : Type} (le : α → α → Bool)
    (htrans : ∀ a b c, le a b = true → le b c = true → le a c = true)
    (htot : ∀ a b, le a b = true ∨ le b a = true) (l : List α) :
    (stableSortLe le l).Pairwise (fun a b => le a b = true) := by
  have haux : ∀ (l acc : List α), acc.Pairwise (fun a b => le a b = true) →
      (l.foldl (fun a x => insertLe le x a) acc).Pairwise
        (fun a b => le a b = true) := by
    intro l
    induction l with
    | nil => exact fun acc h => h
    | cons x xs ih =>
      intro acc hacc
      exact ih _ (pairwise_insertLe le htrans htot x acc hacc)
  exact haux l [] (List.Pairwise.nil)

/-! ## Helper lemmas: the per-species loop of calculate_occurrence_rates -/

theorem specStep_skip_none (hd : List (String × Hotspot)) (minc : ℕ)
    (st : SpeciesAccum) (p : String × Detection)
    (hla : List.lookup p.1 hd = none) : specStep hd minc st p = st := by
  unfold specStep
  rw [hla]

theorem specStep_skip_below (hd : List (String × Hotspot)) (minc : ℕ)
    (st : SpeciesAccum) (p : String × Detection) (hs : Hotspot)
    (hla : List.lookup p.1 hd = some hs)
    (hth : hs.total_checklists < minc) : specStep hd minc st p = st := by
  unfold specStep
  rw [hla]
  dsimp only
  rw [if_pos hth]

theorem specStep_pass (hd : List (String × Hotspot)) (minc : ℕ)
    (st : SpeciesAccum) (p : String × Detection) (hs : Hotspot)
    (hla : List.lookup p.1 hd = some hs)
    (hth : ¬hs.total_checklists < minc) :
    specStep hd minc st p =
      { hotspots_list := st.hotspots_list ++ [hotspotEntry p.1 hs p.2]
        total_detections := st.total_detections + p.2.checklist_ids.card
        scientific_name :=
          match st.scientific_name with
          | none => some p.2.scientific_name
          | some s => some s } := by
  unfold specStep
  rw [hla]
  dsimp only
  rw [if_neg hth]

theorem mem_hotspots_foldl (hd : List (String × Hotspot)) (minc : ℕ)
    (dets : List (String × Detection)) (st : SpeciesAccum)
    (h : SpeciesAtHotspot) :
    h ∈ (dets.foldl (specStep hd minc) st).hotspots_list ↔
      h ∈ st.hotspots_list ∨ ∃ p ∈ dets, ∃ hs,
        List.lookup p.1 hd = some hs ∧ minc ≤ hs.total_checklists ∧
        h = hotspotEntry p.1 hs p.2 := by
  induction dets generalizing st with
  | nil => simp
  | cons a rest ih =>
    rw [List.foldl_cons, ih]
    have hstep : (specStep hd minc st a).hotspots_list = st.hotspots_list ∨
        ∃ hs, List.lookup a.1 hd = some hs ∧ minc ≤ hs.total_checklists ∧
          (specStep hd minc st a).hotspots_list =
            st.hotspots_list ++ [hotspotEntry a.1 hs a.2] := by
      cases hla : List.lookup a.1 hd with
      | none => rw [specStep_skip_none hd minc st a hla]; exact Or.inl rfl
      | some hs =>
        by_cases hth : hs.total_checklists < minc
        · rw [specStep_skip_below hd minc st a hs hla hth]
          exact Or.inl rfl
        · rw [specStep_pass hd minc st a hs hla hth]
          exact Or.inr ⟨hs, rfl, not_lt.mp hth, rfl⟩
    constructor
    · intro hmem
      rcases hmem with hmem | ⟨p, hp, hs, hla, hth, heq⟩
      · rcases hstep with heq | ⟨hs, hla, hth, heq⟩
        · rw [heq] at hmem
          exact Or.inl hmem
        · rw [heq, List.mem_append] at hmem
          rcases hmem with hmem | hmem
          · exact Or.inl hmem
          · simp only [List.mem_singleton] at hmem
            exact Or.inr ⟨a, List.mem_cons_self _ _, hs, hla, hth, hmem⟩
      · exact Or.inr ⟨p, List.mem_cons_of_mem _ hp, hs, hla, hth, heq⟩
    · intro hmem
      rcases hmem with hmem | ⟨p, hp, hs, hla, hth, heq⟩
      · left
        rcases hstep with heq | ⟨hs, hla, hth, heq⟩
        · rw [heq]
          exact hmem
        · rw [heq, List.mem_append]
          exact Or.inl hmem
      · rcases List.mem_cons.mp hp with rfl | hp'
        · left
          rw [specStep_pass hd minc st p hs hla (not_lt.mpr hth), List.mem_append]
          right
          simp [heq]
        · exact Or.inr ⟨p, hp', hs, hla, hth, heq⟩

theorem mem_processSpecies_hotspots (hd : List (String × Hotspot))
    (minc : ℕ) (sp : String) (dets : List (String × Detection))
    (h : SpeciesAtHotspot) :
    h ∈ (processSpecies hd minc sp dets).hotspots ↔
      ∃ p ∈ dets, ∃ hs, List.lookup p.1 hd = some hs ∧
        minc ≤ hs.total_checklists ∧ h = hotspotEntry p.1 hs p.2 := by
  unfold processSpecies sortHotspots
  rw [(stableSortLe_perm hotspotLe _).mem_iff, mem_hotspots_foldl]
  simp

theorem sci_foldl_some (hd : List (String × Hotspot)) (minc : ℕ)
    (dets : List (String × Detection)) (l : List SpeciesAtHotspot)
    (t : ℕ) (s : String) :
    (dets.foldl (specStep hd minc)
      { hotspots_list := l, total_detections := t,
        scientific_name := some s }).scientific_name = some s := by
  induction dets generalizing l t with
  | nil => rfl
  | cons a rest ih =>
    rw [List.foldl_cons]
    cases hla : List.lookup a.1 hd with
    | none =>
      rw [specStep_skip_none hd minc _ a hla]
      exact ih l t
    | some hs =>
      by_cases hth : hs.total_checklists < minc
      · rw [specStep_skip_below hd minc _ a hs hla hth]
        exact ih l t
      · rw [specStep_pass hd minc _ a hs hla hth]
        exact ih _ _

theorem sci_foldl_none (hd : List (String × Hotspot)) (minc : ℕ)
    (dets : List (String × Detection)) (l : List SpeciesAtHotspot) (t : ℕ) :
    (dets.foldl (specStep hd minc)
      { hotspots_list := l, total_detections := t,
        scientific_name := none }).scientific_name =
      (dets.find? (passesGate hd minc)).map (fun p => p.2.scientific_name) := by
  induction dets generalizing l t with
  | nil => rfl
  | cons a rest ih =>
    rw [List.foldl_cons]
    cases hla : List.lookup a.1 hd with
    | none =>
      have hpg : passesGate hd minc a = false := by simp [passesGate, hla]
      rw [List.find?_cons_of_neg _ (by simp [hpg])]
      rw [specStep_skip_none hd minc _ a hla]
      exact ih l t
    | some hs =>
      by_cases hth : hs.total_checklists < minc
      · have hpg : passesGate hd minc a = false := by
          simp only [passesGate, hla, decide_eq_false_iff_not]
          omega
        rw [List.find?_cons_of_neg _ (by simp [hpg])]
        rw [specStep_skip_below hd minc _ a hs hla hth]
        exact ih l t
      · have hpg : passesGate hd minc a = true := by
          simp only [passesGate, hla, decide_eq_true_eq]
          omega
        rw [List.find?_cons_of_pos _ hpg]
        rw [specStep_pass hd minc _ a hs hla hth]
        rw [sci_foldl_some]
        rfl

theorem foldl_specStep_no_pass (hd : List (String × Hotspot)) (minc : ℕ)
    (dets : List (String × Detection)) (st : SpeciesAccum)
    (hfail : ∀ p ∈ dets, ∀ hs, List.lookup p.1 hd = some hs →
      hs.total_checklists < minc) :
    dets.foldl (specStep hd minc) st = st := by
  induction dets with
  | nil => rfl
  | cons a rest ih =>
    rw [List.foldl_cons]
    have hstep : specStep hd minc st a = st := by
      cases hla : List.lookup a.1 hd with
      | none => exact specStep_skip_none hd minc st a hla
      | some hs =>
        exact specStep_skip_below hd minc st a hs hla
          (hfail a (List.mem_cons_self _ _) hs hla)
    rw [hstep]
    exact ih (fun p hp hs h => hfail p (List.mem_cons_of_mem _ hp) hs h)

/-! ## Helper lemmas: the detection accumulator -/

theorem applyObservation_scientific_name (r : ObsRow) (d : Detection) :
    (applyObservation r d).scientific_name = r.scientific_name := by
  unfold applyObservation
  cases r.observation_count with
  | none => rfl
  | some s =>
    dsimp only
    by_cases hx : s = "X"
    · rw [if_pos hx]
    · rw [if_neg hx]
      cases hp : pyParseInt s <;> rfl

theorem applyObservation_checklist_ids (r : ObsRow) (d : Detection) :
    (applyObservation r d).checklist_ids =
      insert r.sampling_event_identifier d.checklist_ids := by
  unfold applyObservation
  cases r.observation_count with
  | none => rfl
  | some s =>
    dsimp only
    by_cases hx : s = "X"
    · rw [if_pos hx]
    · rw [if_neg hx]
      cases hp : pyParseInt s <;> rfl

theorem applyObservation_monthly (r : ObsRow) (d : Detection) :
    (applyObservation r d).monthly_checklist_ids = fun m =>
      if m = r.observation_month then
        insert r.sampling_event_identifier (d.monthly_checklist_ids m)
      else d.monthly_checklist_ids m := by
  unfold applyObservation
  cases r.observation_count with
  | none => rfl
  | some s =>
    dsimp only
    by_cases hx : s = "X"
    · rw [if_pos hx]
    · rw [if_neg hx]
      cases hp : pyParseInt s <;> rfl

theorem lookupDet_detStep_self (st : List (String × List (String × Detection)))
    (r : ObsRow) :
    lookupDet (detStep st r) r.common_name r.locality_id =
      some (applyObservation r
        ((lookupDet st r.common_name r.locality_id).getD defaultDetection)) := by
  unfold lookupDet detStep
  rw [lookup_updateAssoc_self]
  dsimp only [Option.bind]
  rw [lookup_updateAssoc_self]
  cases List.lookup r.common_name st with
  | none => rfl
  | some inner => rfl

theorem lookupDet_detStep_other (st : List (String × List (String × Detection)))
    (r : ObsRow) (sp loc : String)
    (hne : ¬(sp = r.common_name ∧ loc = r.locality_id)) :
    lookupDet (detStep st r) sp loc = lookupDet st sp loc := by
  unfold lookupDet detStep
  by_cases hsp : sp = r.common_name
  · subst hsp
    have hloc : loc ≠ r.locality_id := fun h => hne ⟨rfl, h⟩
    rw [lookup_updateAssoc_self]
    dsimp only [Option.bind]
    rw [lookup_updateAssoc_other hloc]
    cases List.lookup r.common_name st with
    | none => rfl
    | some inner => rfl
  · rw [lookup_updateAssoc_other hsp]

/-! ## Helper lemmas: the checklist counter -/

theorem monthlySum_update (g : ℕ → ℕ) (mo : ℕ) (h1 : 1 ≤ mo) (h2 : mo ≤ 12) :
    monthlySum (fun m => if m = mo then g m + 1 else g m) = monthlySum g + 1 := by
  interval_cases mo <;> simp [monthlySum] <;> omega

theorem monthlySum_zero : monthlySum (fun _ => 0) = 0 := rfl

theorem additivity_foldl (l : List SampRow)
    (st : List (String × Hotspot))
    (hm : ∀ r ∈ l, 1 ≤ r.observation_month ∧ r.observation_month ≤ 12)
    (hst : ∀ q ∈ st, monthlySum q.2.monthly_checklists = q.2.total_checklists) :
    ∀ q ∈ l.foldl sampStep st,
      monthlySum q.2.monthly_checklists = q.2.total_checklists := by
  induction l generalizing st with
  | nil => exact hst
  | cons r rest ih =>
    rw [List.foldl_cons]
    have hmr := hm r (List.mem_cons_self _ _)
    refine ih _ (fun x hx => hm x (List.mem_cons_of_mem _ hx)) ?_
    unfold sampStep
    refine forall_updateAssoc
      (fun h : Hotspot => monthlySum h.monthly_checklists = h.total_checklists)
      hst ?_ ?_
    · show monthlySum (fun m =>
        if m = r.observation_month then 0 + 1 else 0) = 0 + 1
      have hu := monthlySum_update (fun _ => 0) r.observation_month hmr.1 hmr.2
      simpa [monthlySum_zero] using hu
    · intro v hv
      show monthlySum (fun m =>
        if m = r.observation_month then v.monthly_checklists m + 1
        else v.monthly_checklists m) = v.total_checklists + 1
      rw [monthlySum_update v.monthly_checklists r.observation_month hmr.1 hmr.2,
        hv]

/-! ## Helper lemmas: chunked streaming -/

theorem processSamplingChunk_append (st : List (String × Hotspot))
    (a b : List SampRow) :
    processSamplingChunk st (a ++ b) =
      processSamplingChunk (processSamplingChunk st a) b := by
  simp [processSamplingChunk, List.filter_append, List.foldl_append]

theorem foldl_processSamplingChunk (chunks : List (List SampRow))
    (st : List (String × Hotspot)) :
    chunks.foldl processSamplingChunk st = processSamplingChunk st chunks.flatten := by
  induction chunks generalizing st with
  | nil => simp [processSamplingChunk]
  | cons c cs ih =>
    rw [List.foldl_cons, ih, List.flatten_cons, processSamplingChunk_append]

theorem processObservationChunk_append
    (st : List (String × List (String × Detection))) (a b : List ObsRow) :
    processObservationChunk st (a ++ b) =
      processObservationChunk (processObservationChunk st a) b := by
  simp [processObservationChunk, List.filter_append, List.foldl_append]

theorem foldl_processObservationChunk (chunks : List (List ObsRow))
    (st : List (String × List (String × Detection))) :
    chunks.foldl processObservationChunk st =
      processObservationChunk st chunks.flatten := by
  induction chunks generalizing st with
  | nil => simp [processObservationChunk]
  | cons c cs ih =>
    rw [List.foldl_cons, ih, List.flatten_cons, processObservationChunk_append]

/-! ## Helper lemmas: lookups, the ranking comparator, seasonal rates -/

theorem lookup_mem {β : Type} {k : String} {v : β} {l : List (String × β)}
    (h : List.lookup k l = some v) : (k, v) ∈ l := by
  induction l with
  | nil => simp [List.lookup] at h
  | cons a rest ih =>
    obtain ⟨k', v'⟩ := a
    by_cases hk : k = k'
    · subst hk
      simp only [List.lookup, beq_self_eq_true] at h
      rw [Option.some_inj] at h
      rw [← h]
      exact List.mem_cons_self _ _
    · have h2 : (k == k') = false := by simp [hk]
      simp only [List.lookup, h2] at h
      exact List.mem_cons_of_mem _ (ih h)

theorem hotspotLe_total (a b : SpeciesAtHotspot) :
    hotspotLe a b = true ∨ hotspotLe b a = true := by
  simp only [hotspotLe, decide_eq_true_eq]
  rcases lt_trichotomy a.occurrence_rate b.occurrence_rate with h | h | h
  · right
    exact Or.inl h
  · rcases Nat.le_total b.detection_count a.detection_count with hd | hd
    · exact Or.inl (Or.inr ⟨h, hd⟩)
    · exact Or.inr (Or.inr ⟨h.symm, hd⟩)
  · left
    exact Or.inl h

theorem hotspotLe_trans (a b c : SpeciesAtHotspot) (h1 : hotspotLe a b = true)
    (h2 : hotspotLe b c = true) : hotspotLe a c = true := by
  simp only [hotspotLe, decide_eq_true_eq] at h1 h2 ⊢
  rcases h1 with h1 | ⟨h1e, h1d⟩
  · rcases h2 with h2 | ⟨h2e, h2d⟩
    · exact Or.inl (h2.trans h1)
    · exact Or.inl (h2e ▸ h1)
  · rcases h2 with h2 | ⟨h2e, h2d⟩
    · exact Or.inl (h1e ▸ h2)
    · exact Or.inr ⟨h1e.trans h2e, h2d.trans h1d⟩

theorem seasons_keys_inj : ∀ sm ∈ SEASONS, ∀ sm' ∈ SEASONS,
    sm.1 = sm'.1 → sm = sm' := by decide

theorem mem_seasonalRates_iff (hs : Hotspot) (d : Detection) (sname : String)
    (months : List ℕ) (hmem : (sname, months) ∈ SEASONS) (r : ℚ) :
    (sname, r) ∈ seasonalRates hs d ↔
      (5 ≤ (months.map hs.monthly_checklists).sum ∧
        r = roundDiv RATE_DECIMAL_PLACES
          ((months.map (fun m => (d.monthly_checklist_ids m).card)).sum : ℤ)
          ((months.map hs.monthly_checklists).sum)) := by
  constructor
  · intro hin
    rw [seasonalRates, List.mem_filterMap] at hin
    obtain ⟨sm, hsm, hF⟩ := hin
    dsimp only at hF
    by_cases hif : 5 ≤ (sm.2.map hs.monthly_checklists).sum
    · rw [if_pos hif] at hF
      rw [Option.some_inj] at hF
      have hfst : sm.1 = sname := congrArg Prod.fst hF
      have hsm2 : sm = (sname, months) := seasons_keys_inj sm hsm (sname, months) hmem hfst
      rw [hsm2] at hF hif
      exact ⟨hif, (congrArg Prod.snd hF).symm⟩
    · rw [if_neg hif] at hF
      exact absurd hF (by simp)
  · rintro ⟨h5, hr⟩
    rw [seasonalRates, List.mem_filterMap]
    refine ⟨(sname, months), hmem, ?_⟩
    dsimp only
    rw [if_pos h5, hr]

/-! ## Concrete inputs for witnesses and counterexamples -/

/-- Location with 12 complete January checklists (the worked example of the
spec, section 8). -/
def hsW1 : Hotspot :=
  { name := "Gallup Park", latitude := 42, longitude := -83
    total_checklists := 12
    monthly_checklists := fun m => if m = 1 then 12 else 0 }

/-- Species detected on 6 of the 12 January checklists. -/
def dW1 : Detection :=
  { scientific_name := "Turdus migratorius"
    checklist_ids := {"S1", "S2", "S3", "S4", "S5", "S6"}
    monthly_checklist_ids := fun m =>
      if m = 1 then {"S1", "S2", "S3", "S4", "S5", "S6"} else ∅
    total_count := 30
    max_count := 9 }

def hdW1 : List (String × Hotspot) := [("L1", hsW1)]

def sdW1 : List (String × List (String × Detection)) :=
  [("American Robin", [("L1", dW1)])]

/-- Inconsistent pair of mappings: 11 detection checklists recorded against
a location with only 10 checklists in total. -/
def hsC1 : Hotspot :=
  { name := "Overfull", latitude := 0, longitude := 0
    total_checklists := 10, monthly_checklists := fun _ => 0 }

def dC1 : Detection :=
  { scientific_name := "Sturnus vulgaris"
    checklist_ids :=
      {"S1", "S2", "S3", "S4", "S5", "S6", "S7", "S8", "S9", "S10", "S11"}
    monthly_checklist_ids := fun _ => ∅
    total_count := 0
    max_count := 0 }

def hdC1 : List (String × Hotspot) := [("L1", hsC1)]

def sdC1 : List (String × List (String × Detection)) :=
  [("European Starling", [("L1", dC1)])]

/-- Location whose spring checklists all fall in March (5 of them), with 5
more in June; total 10 so the pair passes the default gate. -/
def hsC2 : Hotspot :=
  { name := "Union Bay", latitude := 0, longitude := 0
    total_checklists := 10
    monthly_checklists := fun m => if m = 3 then 5 else if m = 6 then 5 else 0 }

/-- Detection data whose March and April sets both contain the same
checklist identifier, so the seasonal sum of sizes (2) differs from the
size of the seasonal union (1). -/
def dC2 : Detection :=
  { scientific_name := "Anas platyrhynchos"
    checklist_ids := {"S1"}
    monthly_checklist_ids := fun m =>
      if m = 3 then {"S1"} else if m = 4 then {"S1"} else ∅
    total_count := 0
    max_count := 0 }

def hdC2 : List (String × Hotspot) := [("L2", hsC2)]

def sdC2 : List (String × List (String × Detection)) :=
  [("Mallard", [("L2", dC2)])]

/-- Two locations with equal checklist totals but different detection
counts, listed in the detection mapping in ascending order of rate so the
sort must reorder them. -/
def hsW3a : Hotspot :=
  { name := "Low", latitude := 0, longitude := 0
    total_checklists := 10, monthly_checklists := fun _ => 0 }

def hsW3b : Hotspot :=
  { name := "High", latitude := 0, longitude := 0
    total_checklists := 10, monthly_checklists := fun _ => 0 }

def dW3a : Detection :=
  { scientific_name := "Cardinalis cardinalis"
    checklist_ids := {"S1"}
    monthly_checklist_ids := fun _ => ∅
    total_count := 0, max_count := 0 }

def dW3b : Detection :=
  { scientific_name := "Cardinalis cardinalis"
    checklist_ids := {"S1", "S2", "S3", "S4", "S5"}
    monthly_checklist_ids := fun _ => ∅
    total_count := 0, max_count := 0 }

def hdW3 : List (String × Hotspot) := [("LA", hsW3a), ("LB", hsW3b)]

def detsW3 : List (String × Detection) := [("LA", dW3a), ("LB", dW3b)]

def sdW3 : List (String × List (String × Detection)) :=
  [("Northern Cardinal", detsW3)]

/-- A location with only 9 qualifying checklists, detected on all 9 (a
100 percent rate), next to one with 10. -/
def hsW4a : Hotspot :=
  { name := "Nine", latitude := 0, longitude := 0
    total_checklists := 9, monthly_checklists := fun _ => 0 }

def hsW4b : Hotspot :=
  { name := "Ten", latitude := 0, longitude := 0
    total_checklists := 10, monthly_checklists := fun _ => 0 }

def dW4a : Detection :=
  { scientific_name := "Cyanocitta cristata"
    checklist_ids := {"S1", "S2", "S3", "S4", "S5", "S6", "S7", "S8", "S9"}
    monthly_checklist_ids := fun _ => ∅
    total_count := 0, max_count := 0 }

def dW4b : Detection :=
  { scientific_name := "Cyanocitta cristata"
    checklist_ids := {"S1"}
    monthly_checklist_ids := fun _ => ∅
    total_count := 0, max_count := 0 }

def hdW4 : List (String × Hotspot) := [("L9", hsW4a), ("L10", hsW4b)]

def detsW4 : List (String × Detection) := [("L9", dW4a), ("L10", dW4b)]

def sdW4 : List (String × List (String × Detection)) :=
  [("Blue Jay", detsW4)]

/-- Qualifying observation row whose count field is the presence sentinel. -/
def obsRowX : ObsRow :=
  { common_name := "American Robin"
    scientific_name := "Turdus migratorius"
    category := "species"
    locality_id := "L1"
    locality_type := "H"
    sampling_event_identifier := "S1"
    all_species_reported := some 1
    observation_month := 1
    observation_count := some "X" }

/-- Qualifying observation row carrying the parseable negative count "-5":
not the sentinel and not a non-negative integer. -/
def obsRowNeg : ObsRow :=
  { common_name := "American Robin"
    scientific_name := "Turdus migratorius"
    category := "species"
    locality_id := "L1"
    locality_type := "H"
    sampling_event_identifier := "S1"
    all_species_reported := some 1
    observation_month := 1
    observation_count := some "-5" }

/-- Two qualifying rows for the same (species, locality) pair carrying
different scientific names. -/
def rowSciA : ObsRow :=
  { common_name := "Canada Goose"
    scientific_name := "Name A"
    category := "species"
    locality_id := "L1"
    locality_type := "H"
    sampling_event_identifier := "S1"
    all_species_reported := some 1
    observation_month := 1
    observation_count := some "X" }

def rowSciB : ObsRow :=
  { common_name := "Canada Goose"
    scientific_name := "Name B"
    category := "species"
    locality_id := "L1"
    locality_type := "H"
    sampling_event_identifier := "S2"
    all_species_reported := some 1
    observation_month := 2
    observation_count := some "3" }

/-- Species whose only location is below the checklist threshold. -/
def hsW7 : Hotspot :=
  { name := "Sparse", latitude := 0, longitude := 0
    total_checklists := 9, monthly_checklists := fun _ => 0 }

def dW7 : Detection :=
  { scientific_name := "Branta canadensis"
    checklist_ids := {"S1", "S2"}
    monthly_checklist_ids := fun _ => ∅
    total_count := 0, max_count := 0 }

def hdW7 : List (String × Hotspot) := [("L9", hsW7)]

def detsW7 : List (String × Detection) := [("L9", dW7)]

def sdW7 : List (String × List (String × Detection)) :=
  [("Canada Goose", detsW7)]

/-- Three qualifying sampling rows: two January visits and one February
visit to the same locality. -/
def srowW8a : SampRow :=
  { locality_id := "L1", locality := "Park", locality_type := "H"
    latitude := 42, longitude := -83, observation_month := 1
    sampling_event_identifier := "S1", all_species_reported := some 1 }

def srowW8b : SampRow :=
  { locality_id := "L1", locality := "Park", locality_type := "H"
    latitude := 42, longitude := -83, observation_month := 1
    sampling_event_identifier := "S2", all_species_reported := some 1 }

def srowW8c : SampRow :=
  { locality_id := "L1", locality := "Park", locality_type := "H"
    latitude := 42, longitude := -83, observation_month := 2
    sampling_event_identifier := "S3", all_species_reported := some 1 }

def rowsW8 : List SampRow := [srowW8a, srowW8b, srowW8c]

/-- Detection mapping in which the species' first listed location fails
the gate and carries one scientific name, while the second passes and
carries a different one. -/
def dW10a : Detection :=
  { scientific_name := "First Name"
    checklist_ids := {"S1"}
    monthly_checklist_ids := fun _ => ∅
    total_count := 0, max_count := 0 }

def dW10b : Detection :=
  { scientific_name := "Second Name"
    checklist_ids := {"S2"}
    monthly_checklist_ids := fun _ => ∅
    total_count := 0, max_count := 0 }

def hdW10 : List (String × Hotspot) := [("L9", hsW7), ("L10", hsW4b)]

def detsW10 : List (String × Detection) := [("L9", dW10a), ("L10", dW10b)]

def sdW10 : List (String × List (String × Detection)) :=
  [("Gadwall", detsW10), ("Canada Goose", detsW7)]

/-! ## Further helper lemmas for the count policy -/

theorem applyObservation_count_skip (r : ObsRow) (d : Detection)
    (h : r.observation_count = none ∨ r.observation_count = some "X" ∨
      (∃ s, r.observation_count = some s ∧ s ≠ "X" ∧ pyParseInt s = none)) :
    (applyObservation r d).total_count = d.total_count ∧
    (applyObservation r d).max_count = d.max_count := by
  unfold applyObservation
  rcases h with h | h | ⟨s, hs, hx, hp⟩
  · rw [h]
    exact ⟨rfl, rfl⟩
  · rw [h]
    exact ⟨rfl, rfl⟩
  · rw [hs]
    dsimp only
    rw [if_neg hx, hp]
    exact ⟨rfl, rfl⟩

theorem applyObservation_count_add (r : ObsRow) (d : Detection) (s : String)
    (k : ℤ) (hs : r.observation_count = some s) (hx : s ≠ "X")
    (hp : pyParseInt s = some k) :
    (applyObservation r d).total_count = d.total_count + k ∧
    (applyObservation r d).max_count = max d.max_count k := by
  unfold applyObservation
  rw [hs]
  dsimp only
  rw [if_neg hx, hp]
  exact ⟨rfl, rfl⟩

theorem sci_agree_foldl (sp loc s : String) (l : List ObsRow)
    (st : List (String × List (String × Detection)))
    (hl : ∀ r ∈ l, r.common_name = sp → r.locality_id = loc →
      r.scientific_name = s)
    (hst : ∀ d, lookupDet st sp loc = some d → d.scientific_name = s) :
    ∀ d, lookupDet (l.foldl detStep st) sp loc = some d →
      d.scientific_name = s := by
  induction l generalizing st with
  | nil => exact hst
  | cons r rest ih =>
    rw [List.foldl_cons]
    refine ih _ (fun x hx => hl x (List.mem_cons_of_mem _ hx)) ?_
    intro d hd
    by_cases hc : sp = r.common_name ∧ loc = r.locality_id
    · obtain ⟨h1, h2⟩ := hc
      rw [h1, h2, lookupDet_detStep_self] at hd
      rw [Option.some_inj] at hd
      rw [← hd, applyObservation_scientific_name]
      exact hl r (List.mem_cons_self _ _) h1.symm h2.symm
    · rw [lookupDet_detStep_other st r sp loc hc] at hd
      exact hst d hd

/-! ## Claim theorems -/

/-- C8: for every location record built by `count_checklists_per_hotspot`,
the sum of its twelve monthly visit counts equals its total visit count.
The theorem quantifies over every row stream; since the accumulator state
after any prefix of the stream is `count_checklists_per_hotspot` of that
prefix (a left fold from the empty mapping, whose initialization is
total 0 and twelve zeroed buckets), this covers every point during and
after the streaming pass. Months of parsed dates are always 1..12, which
is the hypothesis. -/
theorem checklist_monthly_additivity (rows : List SampRow)
    (hm : ∀ r ∈ rows, 1 ≤ r.observation_month ∧ r.observation_month ≤ 12) :
    ∀ q ∈ count_checklists_per_hotspot rows,
      monthlySum q.2.monthly_checklists = q.2.total_checklists := by
  intro q hq
  refine additivity_foldl (rows.filter sampQualifies) [] ?_ (by simp) q hq
  intro r hr
  exact hm r (List.mem_filter.mp hr).1

/-- Witness for C8 at a concrete stream of three qualifying visits (two in
January, one in February): every accumulated record satisfies the
additivity invariant. -/
theorem checklist_monthly_additivity_witness :
    (count_checklists_per_hotspot rowsW8).all
      (fun q => monthlySum q.2.monthly_checklists == q.2.total_checklists)
      = true := by
  rw [List.all_eq_true]
  intro q hq
  exact beq_iff_eq.mpr (checklist_monthly_additivity rowsW8 (by decide) q hq)

/-- C9: processing the row stream in arbitrarily-sized contiguous chunks
(the chunked streaming passes exactly as the source runs them) produces
the same aggregates as processing the whole stream in one chunk, for both
`count_checklists_per_hotspot` and `count_species_detections`: chunk size
never affects the final mappings. -/
theorem aggregation_chunk_invariance :
    (∀ chunks : List (List SampRow),
      count_checklists_chunked chunks =
        count_checklists_per_hotspot chunks.flatten) ∧
    (∀ chunks : List (List ObsRow),
      count_species_detections_chunked chunks =
        count_species_detections chunks.flatten) :=
  ⟨fun chunks => foldl_processSamplingChunk chunks [],
   fun chunks => foldl_processObservationChunk chunks []⟩

/-- C5 (amended): for every qualifying observation row processed by
`count_species_detections`, the row's visit identifier is added to the
overall and monthly detection sets of its (species, locality) pair; when
the count field is missing, the sentinel "X", or not a parseable integer,
the running total and maximum are left unchanged; when it parses as an
integer k (of either sign - the source's `int()` also accepts negative
strings, which is what the counterexample exploits), the total increases
by k and the maximum becomes `max` of the old maximum and k. -/
theorem detection_count_row_policy
    (st : List (String × List (String × Detection))) (r : ObsRow)
    (hq : obsQualifies r = true) :
    ∃ d1, lookupDet (detStep st r) r.common_name r.locality_id = some d1 ∧
      (r.sampling_event_identifier ∈ d1.checklist_ids ∧
        r.sampling_event_identifier ∈
          d1.monthly_checklist_ids r.observation_month) ∧
      ((r.observation_count = none ∨ r.observation_count = some "X" ∨
          (∃ s, r.observation_count = some s ∧ s ≠ "X" ∧
            pyParseInt s = none)) →
        d1.total_count =
          ((lookupDet st r.common_name r.locality_id).getD
            defaultDetection).total_count ∧
        d1.max_count =
          ((lookupDet st r.common_name r.locality_id).getD
            defaultDetection).max_count) ∧
      (∀ s k, r.observation_count = some s → s ≠ "X" →
        pyParseInt s = some k →
        d1.total_count =
          ((lookupDet st r.common_name r.locality_id).getD
            defaultDetection).total_count + k ∧
        d1.max_count =
          max ((lookupDet st r.common_name r.locality_id).getD
            defaultDetection).max_count k) := by
  refine ⟨applyObservation r
    ((lookupDet st r.common_name r.locality_id).getD defaultDetection),
    lookupDet_detStep_self st r, ⟨?_, ?_⟩, ?_, ?_⟩
  · rw [applyObservation_checklist_ids]
    exact Finset.mem_insert_self _ _
  · have hm := congrFun (applyObservation_monthly r
      ((lookupDet st r.common_name r.locality_id).getD defaultDetection))
      r.observation_month
    rw [hm, if_pos rfl]
    exact Finset.mem_insert_self _ _
  · intro hcase
    exact applyObservation_count_skip r _ hcase
  · intro s k hs hx hp
    exact applyObservation_count_add r _ s k hs hx hp

/-- Witness for C5: the presence-sentinel row `obsRowX` registers its
visit identifier but leaves total and maximum at their initial zeros. -/
theorem detection_count_row_policy_witness :
    ∃ d1, lookupDet (detStep [] obsRowX) obsRowX.common_name
        obsRowX.locality_id = some d1 ∧
      obsRowX.sampling_event_identifier ∈ d1.checklist_ids ∧
      d1.total_count = 0 ∧ d1.max_count = 0 := by
  obtain ⟨d1, hd1, ⟨hmem, _⟩, hunch, _⟩ :=
    detection_count_row_policy [] obsRowX (by decide)
  have h0 := hunch (Or.inr (Or.inl rfl))
  exact ⟨d1, hd1, hmem, h0.1, h0.2⟩

/-- C5 counterexample: the qualifying row `obsRowNeg` carries the count
string "-5", which is not the sentinel and not a parseable NON-NEGATIVE
integer, yet the running total changes from its initial 0 to -5: the
source updates the aggregates for every parseable integer, whatever its
sign, refuting the claim that only parseable non-negative integers update
the total. -/
theorem detection_count_negative_updates :
    obsQualifies obsRowNeg = true ∧
    obsRowNeg.observation_count = some "-5" ∧
    pyParseInt "-5" = some (-5) ∧ (-5 : ℤ) < 0 ∧
    (lookupDet (count_species_detections [obsRowNeg]) "American Robin"
      "L1").map Detection.total_count = some (-5) ∧
    defaultDetection.total_count = 0 := by decide

/-- C6 (amended): every qualifying row for a (species, locality) pair
overwrites the pair's scientific-name field with that row's own value
(last write wins), so the field is NOT fixed at the first observation in
general; when all qualifying rows of the pair carry the same scientific
name - the only situation arising from consistent data, and the spec's
idempotent case - the final field equals that common (hence the first
row's) value. -/
theorem scientific_name_overwrite :
    (∀ (st : List (String × List (String × Detection))) (r : ObsRow),
      obsQualifies r = true →
      (lookupDet (detStep st r) r.common_name r.locality_id).map
        Detection.scientific_name = some r.scientific_name) ∧
    (∀ (rows : List ObsRow) (sp loc s : String),
      (∀ r ∈ rows, obsQualifies r = true → r.common_name = sp →
        r.locality_id = loc → r.scientific_name = s) →
      ∀ d, lookupDet (count_species_detections rows) sp loc = some d →
        d.scientific_name = s) := by
  constructor
  · intro st r _
    rw [lookupDet_detStep_self]
    rw [Option.map_some']
    rw [applyObservation_scientific_name]
  · intro rows sp loc s hrows d hd
    refine sci_agree_foldl sp loc s (rows.filter obsQualifies) [] ?_ ?_ d hd
    · intro r hr
      exact hrows r (List.mem_filter.mp hr).1 (List.mem_filter.mp hr).2
    · intro d' hd'
      simp [lookupDet, List.lookup] at hd'

/-- Witness for C6 at a concrete qualifying row: after the row is
processed the pair's scientific-name field equals that row's value. -/
theorem scientific_name_overwrite_witness :
    (lookupDet (detStep [] rowSciA) rowSciA.common_name
      rowSciA.locality_id).map Detection.scientific_name
      = some rowSciA.scientific_name :=
  scientific_name_overwrite.1 [] rowSciA (by decide)

/-- C6 counterexample: two qualifying rows for the same (species,
locality) pair carrying different scientific names "Name A" then
"Name B"; after processing both, the field holds the LATER row's value
"Name B", not the first observation's "Name A" - the claim that later
rows leave the field unchanged whatever value they carry is false. -/
theorem scientific_name_conflict :
    obsQualifies rowSciA = true ∧ obsQualifies rowSciB = true ∧
    rowSciA.common_name = rowSciB.common_name ∧
    rowSciA.locality_id = rowSciB.locality_id ∧
    rowSciA.scientific_name = "Name A" ∧
    (lookupDet (count_species_detections [rowSciA, rowSciB]) "Canada Goose"
      "L1").map Detection.scientific_name = some "Name B" ∧
    ("Name B" : String) ≠ "Name A" := by decide

/-- C1 (amended): every SpeciesAtHotspot entry produced by
`calculate_occurrence_rates` comes from a (species, locality) pair of the
detection mapping and a locality record of the hotspot mapping, and its
occurrence rate equals the detection-visit-set size over that locality's
total checklists, rounded to 4 decimal places; and whenever every
detection-visit count in the inputs is at most the matching locality's
total checklists (as when detection visits are a subset of the locality's
complete-checklist visits, which the pipeline's inputs satisfy but
arbitrary mapping pairs need not - see the counterexample), the rate lies
in [0, 1] and the detection count is at most the total. -/
theorem occurrence_rate_bounds (hd : List (String × Hotspot))
    (sd : List (String × List (String × Detection))) (minc : ℕ)
    (q : String × SpeciesGuide)
    (hq : q ∈ calculate_occurrence_rates hd sd minc)
    (h : SpeciesAtHotspot) (hh : h ∈ q.2.hotspots) :
    (∃ dets, (q.1, dets) ∈ sd ∧ ∃ loc d hs, (loc, d) ∈ dets ∧
      List.lookup loc hd = some hs ∧ minc ≤ hs.total_checklists ∧
      h.locality_id = loc ∧ h.detection_count = d.checklist_ids.card ∧
      h.total_checklists = hs.total_checklists ∧
      h.occurrence_rate = roundDiv RATE_DECIMAL_PLACES
        (d.checklist_ids.card : ℤ) hs.total_checklists) ∧
    ((∀ a ∈ sd, ∀ b ∈ a.2, ∀ c ∈ hd, b.1 = c.1 →
        b.2.checklist_ids.card ≤ c.2.total_checklists) →
      0 ≤ h.occurrence_rate ∧ h.occurrence_rate ≤ 1 ∧
        h.detection_count ≤ h.total_checklists) := by
  rw [calculate_occurrence_rates, List.mem_map] at hq
  obtain ⟨p, hp, hqe⟩ := hq
  subst hqe
  dsimp only at hh ⊢
  rw [mem_processSpecies_hotspots] at hh
  obtain ⟨pd, hpd, hs, hla, hth, heq⟩ := hh
  constructor
  · refine ⟨p.2, hp, pd.1, pd.2, hs, hpd, hla, hth, ?_, ?_, ?_, ?_⟩ <;>
      (rw [heq]; rfl)
  · intro hsub
    have hcard : pd.2.checklist_ids.card ≤ hs.total_checklists :=
      hsub p hp pd hpd (pd.1, hs) (lookup_mem hla) rfl
    refine ⟨?_, ?_, ?_⟩
    · rw [heq]
      exact roundDiv_nonneg RATE_DECIMAL_PLACES _ _ (Int.natCast_nonneg _)
    · rw [heq]
      exact roundDiv_le_one RATE_DECIMAL_PLACES _ _ (Int.natCast_nonneg _)
        (by exact_mod_cast hcard)
    · rw [heq]
      exact hcard

/-- Witness for C1 at the spec's worked example (6 detections out of 12
January checklists): the entry's rate is in [0, 1] and its detection
count is at most its checklist total. -/
theorem occurrence_rate_bounds_witness :
    0 ≤ (hotspotEntry "L1" hsW1 dW1).occurrence_rate ∧
    (hotspotEntry "L1" hsW1 dW1).occurrence_rate ≤ 1 ∧
    (hotspotEntry "L1" hsW1 dW1).detection_count ≤
      (hotspotEntry "L1" hsW1 dW1).total_checklists := by
  have h := occurrence_rate_bounds hdW1 sdW1 MIN_CHECKLISTS_THRESHOLD
    ("American Robin",
      processSpecies hdW1 MIN_CHECKLISTS_THRESHOLD "American Robin"
        [("L1", dW1)])
    (by decide) (hotspotEntry "L1" hsW1 dW1) (by decide)
  exact h.2 (by decide)

/-- C1 counterexample: on the inconsistent input pair `hdC1`/`sdC1` (11
recorded detection checklists against a locality with 10 checklists in
total, a situation no constraint of `calculate_occurrence_rates` rules
out), the produced entry has detection count 11 > total 10 and occurrence
rate 11/10 > 1 - so the bounds do NOT hold for every pair of input
mappings, only under the subset hypothesis. -/
theorem occurrence_rate_above_one :
    dC1.checklist_ids.card = 11 ∧ hsC1.total_checklists = 10 ∧
    (calculate_occurrence_rates hdC1 sdC1 MIN_CHECKLISTS_THRESHOLD).map
      (fun p => p.2.hotspots.map
        (fun h => (h.detection_count, h.total_checklists, h.occurrence_rate)))
      = [[(11, 10, mkRat 11 10)]] ∧
    ¬ mkRat 11 10 ≤ 1 := by decide

/-- C2 (amended): for every (species, locality) pair of the detection
mapping whose locality passes the inclusion gate, the species' guide
contains the pair's entry, and for each of the four fixed seasons a rate
is present for that season if and only if the sum of the locality's
monthly visit counts over the season's months is at least 5, in which
case the (unique) rate equals the SUM OF THE SIZES of the species'
monthly detection-visit sets for those months - not the size of their
union, see the counterexample - divided by that visit sum, rounded to 4
places; when the sum is below 5 the season is absent (omitted, not
zero). -/
theorem seasonal_rate_sum_characterization (hd : List (String × Hotspot))
    (sd : List (String × List (String × Detection))) (minc : ℕ)
    (sp : String) (dets : List (String × Detection)) (loc : String)
    (d : Detection) (hs : Hotspot) (hsd : (sp, dets) ∈ sd)
    (hdet : (loc, d) ∈ dets) (hlk : List.lookup loc hd = some hs)
    (hth : minc ≤ hs.total_checklists) :
    ∃ g, (sp, g) ∈ calculate_occurrence_rates hd sd minc ∧
      hotspotEntry loc hs d ∈ g.hotspots ∧
      ∀ sname months, (sname, months) ∈ SEASONS → ∀ r : ℚ,
        ((sname, r) ∈ (hotspotEntry loc hs d).seasonal_rates ↔
          (5 ≤ (months.map hs.monthly_checklists).sum ∧
            r = roundDiv RATE_DECIMAL_PLACES
              ((months.map
                (fun m => (d.monthly_checklist_ids m).card)).sum : ℤ)
              ((months.map hs.monthly_checklists).sum))) := by
  refine ⟨processSpecies hd minc sp dets, ?_, ?_, ?_⟩
  · rw [calculate_occurrence_rates, List.mem_map]
    exact ⟨(sp, dets), hsd, rfl⟩
  · rw [mem_processSpecies_hotspots]
    exact ⟨(loc, d), hdet, hs, hlk, hth, rfl⟩
  · intro sname months hmem r
    exact mem_seasonalRates_iff hs d sname months hmem r

/-- Witness for C2 at the worked example: winter (months 12, 1, 2) has
12 >= 5 checklists and 6 seasonal detections, so the winter rate 1/2 is
present in the entry's seasonal mapping. -/
theorem seasonal_rate_sum_characterization_witness :
    ("winter", mkRat 1 2) ∈ (hotspotEntry "L1" hsW1 dW1).seasonal_rates := by
  obtain ⟨g, hg, hmem, hchar⟩ := seasonal_rate_sum_characterization hdW1 sdW1
    MIN_CHECKLISTS_THRESHOLD "American Robin" [("L1", dW1)] "L1" dW1 hsW1
    (by simp [sdW1]) (by simp) rfl (by decide)
  exact (hchar "winter" [12, 1, 2] (by decide) (mkRat 1 2)).mpr (by decide)

/-- C2 counterexample: `dC2`'s March and April detection sets both hold
the same checklist identifier "S1"; spring (months 3, 4, 5) has 5
checklists, and the emitted spring rate is (1+1+0)/5 = 2/5 - the sum of
the monthly set sizes - whereas the size of the UNION of the monthly
detection sets is 1, whose rounded quotient is 1/5 differing from 2/5: the
output rate does not equal the union-based formula the claim states. -/
theorem seasonal_rate_union_mismatch :
    ([3, 4, 5].map hsC2.monthly_checklists).sum = 5 ∧
    (calculate_occurrence_rates hdC2 sdC2 MIN_CHECKLISTS_THRESHOLD).map
      (fun p => p.2.hotspots.map
        (fun h => List.lookup "spring" h.seasonal_rates))
      = [[some (mkRat 2 5)]] ∧
    specSeasonalUnionCard dC2 [3, 4, 5] = 1 ∧
    roundDiv RATE_DECIMAL_PLACES 1 5 = mkRat 1 5 ∧
    mkRat 2 5 ≠ mkRat 1 5 := by decide

/-- C3: within every species' guide produced by
`calculate_occurrence_rates`, the location list is sorted by occurrence
rate descending with ties broken by detection count descending: for any
adjacent pair (A before B), A's rate exceeds B's, or the rates are equal
and A's detection count is at least B's. The order is deterministic given
identical inputs because the embedding is a pure function (the sort is the
stable sort of the source's `list.sort`). -/
theorem hotspot_ranking_sorted (hd : List (String × Hotspot))
    (sd : List (String × List (String × Detection))) (minc : ℕ)
    (q : String × SpeciesGuide)
    (hq : q ∈ calculate_occurrence_rates hd sd minc) :
    List.Chain' (fun a b => b.occurrence_rate < a.occurrence_rate ∨
      (a.occurrence_rate = b.occurrence_rate ∧
        b.detection_count ≤ a.detection_count)) q.2.hotspots := by
  rw [calculate_occurrence_rates, List.mem_map] at hq
  obtain ⟨p, hp, hqe⟩ := hq
  subst hqe
  dsimp only
  have hpw := pairwise_stableSortLe hotspotLe hotspotLe_trans hotspotLe_total
    ((p.2.foldl (specStep hd minc)
      { hotspots_list := [], total_detections := 0,
        scientific_name := none }).hotspots_list)
  have hpw2 := hpw.imp (fun hab => of_decide_eq_true hab)
  exact hpw2.chain'

/-- Witness for C3: two locations with rates 1/10 and 1/2 listed in
ascending order in the input are emitted in descending rate order, and
the adjacent-pair property holds on the resulting guide. -/
theorem hotspot_ranking_sorted_witness :
    List.Chain' (fun a b => b.occurrence_rate < a.occurrence_rate ∨
      (a.occurrence_rate = b.occurrence_rate ∧
        b.detection_count ≤ a.detection_count))
      (processSpecies hdW3 MIN_CHECKLISTS_THRESHOLD "Northern Cardinal"
        detsW3).hotspots :=
  hotspot_ranking_sorted hdW3 sdW3 MIN_CHECKLISTS_THRESHOLD
    ("Northern Cardinal",
      processSpecies hdW3 MIN_CHECKLISTS_THRESHOLD "Northern Cardinal" detsW3)
    (by decide)

/-- C4: a (species, locality) pair appears in a species' guide only if the
locality is present in the hotspot mapping with total qualifying visits at
least the minimum-visits threshold; the gate depends only on the locality.
In particular (second conjunct, at the default threshold 10) a locality
with exactly 9 total qualifying visits appears under no species' guide,
whatever its detection data. -/
theorem hotspot_inclusion_gate (hd : List (String × Hotspot))
    (sd : List (String × List (String × Detection))) :
    (∀ minc q, q ∈ calculate_occurrence_rates hd sd minc →
      ∀ h ∈ q.2.hotspots, ∃ hs,
        List.lookup h.locality_id hd = some hs ∧
        minc ≤ hs.total_checklists ∧
        h.total_checklists = hs.total_checklists) ∧
    (∀ loc hs, List.lookup loc hd = some hs → hs.total_checklists = 9 →
      ∀ q, q ∈ calculate_occurrence_rates hd sd MIN_CHECKLISTS_THRESHOLD →
        ∀ h ∈ q.2.hotspots, h.locality_id ≠ loc) := by
  have hgen : ∀ minc q, q ∈ calculate_occurrence_rates hd sd minc →
      ∀ h ∈ q.2.hotspots, ∃ hs,
        List.lookup h.locality_id hd = some hs ∧
        minc ≤ hs.total_checklists ∧
        h.total_checklists = hs.total_checklists := by
    intro minc q hq h hh
    rw [calculate_occurrence_rates, List.mem_map] at hq
    obtain ⟨p, hp, hqe⟩ := hq
    subst hqe
    dsimp only at hh
    rw [mem_processSpecies_hotspots] at hh
    obtain ⟨pd, hpd, hs, hla, hth, heq⟩ := hh
    refine ⟨hs, ?_, hth, ?_⟩
    · rw [heq]
      exact hla
    · rw [heq]
      rfl
  refine ⟨hgen, ?_⟩
  intro loc hs hlk h9 q hq h hh heq
  obtain ⟨hs', hla', hth', _⟩ := hgen MIN_CHECKLISTS_THRESHOLD q hq h hh
  rw [heq, hlk] at hla'
  rw [Option.some_inj] at hla'
  rw [← hla'] at hth'
  rw [h9] at hth'
  simp [MIN_CHECKLISTS_THRESHOLD] at hth'

/-- Witness for C4: with `hdW4` holding a 9-checklist locality "L9"
(detected on all 9 visits) and a 10-checklist locality "L10", the entry
that does appear in the Blue Jay guide is not at "L9". -/
theorem hotspot_inclusion_gate_witness :
    (hotspotEntry "L10" hsW4b dW4b).locality_id ≠ "L9" :=
  (hotspot_inclusion_gate hdW4 sdW4).2 "L9" hsW4a rfl rfl
    ("Blue Jay",
      processSpecies hdW4 MIN_CHECKLISTS_THRESHOLD "Blue Jay" detsW4)
    (by decide) (hotspotEntry "L10" hsW4b dW4b) (by decide)

/-- C7: every species present in the detection mapping appears in the
output of `calculate_occurrence_rates` under its own common name, and when
none of its localities passes the inclusion gate its guide carries an
empty location list, total detections 0 and location count 0. -/
theorem species_without_qualifying_locations (hd : List (String × Hotspot))
    (sd : List (String × List (String × Detection))) (minc : ℕ)
    (sp : String) (dets : List (String × Detection))
    (hmem : (sp, dets) ∈ sd) :
    ∃ g, (sp, g) ∈ calculate_occurrence_rates hd sd minc ∧
      g.common_name = sp ∧
      ((∀ p ∈ dets, passesGate hd minc p = false) →
        g.hotspots = [] ∧ g.total_detections = 0 ∧
          g.total_hotspots_detected = 0) := by
  refine ⟨processSpecies hd minc sp dets, ?_, rfl, ?_⟩
  · rw [calculate_occurrence_rates, List.mem_map]
    exact ⟨(sp, dets), hmem, rfl⟩
  · intro hfail
    have hfail2 : ∀ p ∈ dets, ∀ hs, List.lookup p.1 hd = some hs →
        hs.total_checklists < minc := by
      intro p hp hs hlk
      have hf := hfail p hp
      rw [passesGate, hlk] at hf
      simp only [decide_eq_false_iff_not, not_le] at hf
      exact hf
    have hfold := foldl_specStep_no_pass hd minc dets
      { hotspots_list := [], total_detections := 0,
        scientific_name := none } hfail2
    refine ⟨?_, ?_, ?_⟩
    · show sortHotspots ((dets.foldl (specStep hd minc)
        { hotspots_list := [], total_detections := 0,
          scientific_name := none }).hotspots_list) = []
      rw [hfold]
      rfl
    · show (dets.foldl (specStep hd minc)
        { hotspots_list := [], total_detections := 0,
          scientific_name := none }).total_detections = 0
      rw [hfold]
    · show (sortHotspots ((dets.foldl (specStep hd minc)
        { hotspots_list := [], total_detections := 0,
          scientific_name := none }).hotspots_list)).length = 0
      rw [hfold]
      rfl

/-- Witness for C7: the Canada Goose's only locality has 9 checklists and
fails the default gate, yet the species appears in the output with an
empty guide. -/
theorem species_without_qualifying_locations_witness :
    ∃ g, ("Canada Goose", g) ∈
        calculate_occurrence_rates hdW7 sdW7 MIN_CHECKLISTS_THRESHOLD ∧
      g.common_name = "Canada Goose" ∧ g.hotspots = [] ∧
      g.total_detections = 0 ∧ g.total_hotspots_detected = 0 := by
  obtain ⟨g, hg, hname, hempty⟩ := species_without_qualifying_locations
    hdW7 sdW7 MIN_CHECKLISTS_THRESHOLD "Canada Goose" detsW7 (by simp [sdW7])
  obtain ⟨h1, h2, h3⟩ := hempty (by decide)
  exact ⟨g, hg, hname, h1, h2, h3⟩

/-- C10 (implicit): every species of the detection mapping yields a guide
whose scientific name is taken from the FIRST (species, locality) pair
that passes the inclusion gate, in mapping iteration order (`List.find?`
over the association list) - not necessarily the species' first detection
overall - and is the empty string when no pair passes, even though the
detection mapping records a scientific name for the species. -/
theorem guide_scientific_name_from_first_passing
    (hd : List (String × Hotspot))
    (sd : List (String × List (String × Detection))) (minc : ℕ) :
    ∀ p ∈ sd,
      (p.1, processSpecies hd minc p.1 p.2) ∈
        calculate_occurrence_rates hd sd minc ∧
      (processSpecies hd minc p.1 p.2).scientific_name =
        ((p.2.find? (passesGate hd minc)).map
          (fun pd => pd.2.scientific_name)).getD "" := by
  intro p hp
  constructor
  · rw [calculate_occurrence_rates, List.mem_map]
    exact ⟨p, hp, rfl⟩
  · show ((p.2.foldl (specStep hd minc)
      { hotspots_list := [], total_detections := 0,
        scientific_name := none }).scientific_name).getD "" = _
    rw [sci_foldl_none]

/-- Witness for C10: the Gadwall's first listed pair fails the gate and
carries "First Name"; its guide's scientific name is "Second Name" from
the first passing pair. The Canada Goose has no passing pair and its
guide's scientific name is the empty string although its detection record
carries "Branta canadensis". -/
theorem guide_scientific_name_witness :
    (processSpecies hdW10 MIN_CHECKLISTS_THRESHOLD "Gadwall"
      detsW10).scientific_name = "Second Name" ∧
    dW10a.scientific_name = "First Name" ∧
    (processSpecies hdW10 MIN_CHECKLISTS_THRESHOLD "Canada Goose"
      detsW7).scientific_name = "" ∧
    dW7.scientific_name = "Branta canadensis" := by
  refine ⟨?_, rfl, ?_, rfl⟩
  · have h := (guide_scientific_name_from_first_passing hdW10 sdW10
      MIN_CHECKLISTS_THRESHOLD ("Gadwall", detsW10) (by simp [sdW10])).2
    rw [h]
    decide
  · have h := (guide_scientific_name_from_first_passing hdW10 sdW10
      MIN_CHECKLISTS_THRESHOLD ("Canada Goose", detsW7) (by simp [sdW10])).2
    rw [h]
    decide
